import Mathlib

/-
Verification development for the skyportal browser-side form components:
`SourceTableFilterForm.jsx`, `ShareDataForm.jsx`, and the comment list
component.  The JavaScript/React code is shallowly embedded: React
component state becomes explicit records, event handlers become pure
state-transition functions, and the JavaScript runtime errors that the
code can raise (e.g. calling a method on `undefined`) are modelled with
`Except`.
-/

namespace SkyPortal

/-- A JavaScript runtime error raised during rendering. -/
inductive JsError where
  | typeError (msg : String)
deriving DecidableEq

/-- A group entry as supplied through the `groups` prop:
`{ id: integer, name: string }`. -/
structure Group where
  id : Nat
  name : String
deriving DecidableEq

/-- One entry of the list produced by the externally supplied
`allowedClasses` extractor; the source reads its `class` property. -/
structure ClassEntry where
  «class» : String
deriving DecidableEq

/-- A taxonomy entry `{ name, isLatest, hierarchy }`; the hierarchy is
opaque to this component, so it is a type parameter. -/
structure Taxonomy (H : Type) where
  name : String
  isLatest : Bool
  hierarchy : H

/-- `Array.from(new Set(xs))`: removes duplicates keeping the first
occurrence of each element, as a JavaScript `Set` does.  (Stated with
the duplicate-removal after the recursive call so that the recursion is
structural; the result is the same first-occurrence sublist.) -/
def jsSetDedup : List String → List String
  | [] => []
  | x :: xs => x :: (jsSetDedup xs).filter (fun y => y ≠ x)

/-- The classification option set computed in `SourceTableFilterForm`
(lines 105–115): filter the taxonomy list to `isLatest`, map each
allowed class of each kept taxonomy to `"{taxonomy.name}: {option.class}"`,
accumulate with `concat`, then `Array.from(new Set(...)).sort()`. -/
def buildClassifications {H : Type} (allowedClasses : H → List ClassEntry)
    (taxonomyList : List (Taxonomy H)) : List String :=
  let latestTaxonomyList := taxonomyList.filter (fun t => t.isLatest)
  let accumulated := latestTaxonomyList.foldl
    (fun acc taxonomy =>
      acc ++ (allowedClasses taxonomy.hierarchy).map
        (fun option => taxonomy.name ++ ": " ++ option.«class»))
    []
  List.insertionSort (· ≤ ·) (jsSetDedup accumulated)

theorem mem_jsSetDedup (a : String) : ∀ l : List String, a ∈ jsSetDedup l ↔ a ∈ l := by
  intro l
  induction l with
  | nil => simp [jsSetDedup]
  | cons x xs ih =>
    simp only [jsSetDedup, List.mem_cons, List.mem_filter, ih]
    constructor
    · rintro (h | ⟨h, _⟩)
      · exact Or.inl h
      · exact Or.inr h
    · rintro (h | h)
      · exact Or.inl h
      · by_cases hx : a = x
        · exact Or.inl hx
        · exact Or.inr ⟨h, by simpa using hx⟩

theorem nodup_jsSetDedup : ∀ l : List String, (jsSetDedup l).Nodup := by
  intro l
  induction l with
  | nil => simp [jsSetDedup]
  | cons x xs ih =>
    simp only [jsSetDedup, List.nodup_cons]
    refine ⟨fun hmem => ?_, ih.filter _⟩
    rw [List.mem_filter] at hmem
    simpa using hmem.2

theorem foldl_append_map {H : Type} (f : Taxonomy H → List String) :
    ∀ (l : List (Taxonomy H)) (acc : List String),
      l.foldl (fun a t => a ++ f t) acc = acc ++ l.flatMap f := by
  intro l
  induction l with
  | nil => intro acc; simp
  | cons t ts ih => intro acc; simp [List.foldl_cons, ih, List.flatMap_cons, List.append_assoc]

/-! ## Form state of `SourceTableFilterForm`

The registered form fields (react-hook-form), with their default values:
text inputs default to the empty string, the two multi-selects to `[]`
(their `defaultValue` props), the two checkboxes to `false`. -/

/-- The value mapping held by react-hook-form for `SourceTableFilterForm`:
one entry per registered input, keyed by the `name` props in the JSX. -/
structure FormValues where
  sourceID : String
  ra : String
  dec : String
  radius : String
  startDate : String
  endDate : String
  simbadClass : String
  classifications : List String
  minRedshift : String
  maxRedshift : String
  minPeakMagnitude : String
  maxPeakMagnitude : String
  minLatestMagnitude : String
  maxLatestMagnitude : String
  hasTNSname : Bool
  hasSpectrum : Bool
  groupIds : List Nat
deriving DecidableEq

/-- The full component state: the form values plus the two `useState`
display-emphasis mirrors `selectedClassifications` and `selectedGroups`. -/
structure FormState where
  values : FormValues
  selectedClassifications : List String
  selectedGroups : List Nat
deriving DecidableEq

/-- Default form values: empty strings, empty selections, unchecked boxes. -/
def initialValues : FormValues :=
  { sourceID := "", ra := "", dec := "", radius := "", startDate := ""
  , endDate := "", simbadClass := "", classifications := []
  , minRedshift := "", maxRedshift := "", minPeakMagnitude := ""
  , maxPeakMagnitude := "", minLatestMagnitude := "", maxLatestMagnitude := ""
  , hasTNSname := false, hasSpectrum := false, groupIds := [] }

/-- The component state right after mounting: default values and empty
`useState` mirrors. -/
def initialFormState : FormState :=
  { values := initialValues, selectedClassifications := [], selectedGroups := [] }

/-- One field edit: each constructor carries the new value delivered by
the corresponding input's change handler. -/
inductive Field where
  | sourceID (v : String)
  | ra (v : String)
  | dec (v : String)
  | radius (v : String)
  | startDate (v : String)
  | endDate (v : String)
  | simbadClass (v : String)
  | classifications (v : List String)
  | minRedshift (v : String)
  | maxRedshift (v : String)
  | minPeakMagnitude (v : String)
  | maxPeakMagnitude (v : String)
  | minLatestMagnitude (v : String)
  | maxLatestMagnitude (v : String)
  | hasTNSname (v : Bool)
  | hasSpectrum (v : Bool)
  | groupIds (v : List Nat)
deriving DecidableEq

/-- The name of the field an edit targets. -/
inductive FieldName where
  | sourceID | ra | dec | radius | startDate | endDate | simbadClass
  | classifications | minRedshift | maxRedshift | minPeakMagnitude
  | maxPeakMagnitude | minLatestMagnitude | maxLatestMagnitude
  | hasTNSname | hasSpectrum | groupIds
deriving DecidableEq

/-- A field value, tagged by shape (text, string list, id list, flag). -/
inductive FieldValue where
  | str (v : String)
  | strList (v : List String)
  | natList (v : List Nat)
  | bool (v : Bool)
deriving DecidableEq

/-- Which field an edit writes. -/
def Field.name : Field → FieldName
  | .sourceID _ => .sourceID
  | .ra _ => .ra
  | .dec _ => .dec
  | .radius _ => .radius
  | .startDate _ => .startDate
  | .endDate _ => .endDate
  | .simbadClass _ => .simbadClass
  | .classifications _ => .classifications
  | .minRedshift _ => .minRedshift
  | .maxRedshift _ => .maxRedshift
  | .minPeakMagnitude _ => .minPeakMagnitude
  | .maxPeakMagnitude _ => .maxPeakMagnitude
  | .minLatestMagnitude _ => .minLatestMagnitude
  | .maxLatestMagnitude _ => .maxLatestMagnitude
  | .hasTNSname _ => .hasTNSname
  | .hasSpectrum _ => .hasSpectrum
  | .groupIds _ => .groupIds

/-- The value an edit writes. -/
def Field.value : Field → FieldValue
  | .sourceID v => .str v
  | .ra v => .str v
  | .dec v => .str v
  | .radius v => .str v
  | .startDate v => .str v
  | .endDate v => .str v
  | .simbadClass v => .str v
  | .classifications v => .strList v
  | .minRedshift v => .str v
  | .maxRedshift v => .str v
  | .minPeakMagnitude v => .str v
  | .maxPeakMagnitude v => .str v
  | .minLatestMagnitude v => .str v
  | .maxLatestMagnitude v => .str v
  | .hasTNSname v => .bool v
  | .hasSpectrum v => .bool v
  | .groupIds v => .natList v

/-- Read one field out of a `FormValues` record. -/
def getField (values : FormValues) : FieldName → FieldValue
  | .sourceID => .str values.sourceID
  | .ra => .str values.ra
  | .dec => .str values.dec
  | .radius => .str values.radius
  | .startDate => .str values.startDate
  | .endDate => .str values.endDate
  | .simbadClass => .str values.simbadClass
  | .classifications => .strList values.classifications
  | .minRedshift => .str values.minRedshift
  | .maxRedshift => .str values.maxRedshift
  | .minPeakMagnitude => .str values.minPeakMagnitude
  | .maxPeakMagnitude => .str values.maxPeakMagnitude
  | .minLatestMagnitude => .str values.minLatestMagnitude
  | .maxLatestMagnitude => .str values.maxLatestMagnitude
  | .hasTNSname => .bool values.hasTNSname
  | .hasSpectrum => .bool values.hasSpectrum
  | .groupIds => .natList values.groupIds

/-- Apply one field edit to the component state.  Plain inputs write only
their own form value.  The two multi-selects additionally write their
`useState` mirror, exactly as their change handlers do
(`setSelectedClassifications` at lines 235–238, `setSelectedGroups` at
lines 414–417). -/
def setField (s : FormState) : Field → FormState
  | .sourceID v => { s with values := { s.values with sourceID := v } }
  | .ra v => { s with values := { s.values with ra := v } }
  | .dec v => { s with values := { s.values with dec := v } }
  | .radius v => { s with values := { s.values with radius := v } }
  | .startDate v => { s with values := { s.values with startDate := v } }
  | .endDate v => { s with values := { s.values with endDate := v } }
  | .simbadClass v => { s with values := { s.values with simbadClass := v } }
  | .classifications v =>
      { s with values := { s.values with classifications := v }
             , selectedClassifications := v }
  | .minRedshift v => { s with values := { s.values with minRedshift := v } }
  | .maxRedshift v => { s with values := { s.values with maxRedshift := v } }
  | .minPeakMagnitude v => { s with values := { s.values with minPeakMagnitude := v } }
  | .maxPeakMagnitude v => { s with values := { s.values with maxPeakMagnitude := v } }
  | .minLatestMagnitude v => { s with values := { s.values with minLatestMagnitude := v } }
  | .maxLatestMagnitude v => { s with values := { s.values with maxLatestMagnitude := v } }
  | .hasTNSname v => { s with values := { s.values with hasTNSname := v } }
  | .hasSpectrum v => { s with values := { s.values with hasSpectrum := v } }
  | .groupIds v =>
      { s with values := { s.values with groupIds := v }
             , selectedGroups := v }

/-- Apply a sequence of edits left to right. -/
def applyEdits (s : FormState) (es : List Field) : FormState :=
  es.foldl setField s

/-- The value the latest edit of field `n` in `es` wrote, if any
(later edits shadow earlier ones). -/
def lastEdit (n : FieldName) : List Field → Option FieldValue
  | [] => none
  | f :: es =>
      match lastEdit n es with
      | some v => some v
      | none => if f.name = n then some f.value else none

/-! ## Validation, submit and reset for `SourceTableFilterForm` -/

/-- The single error kind this form can surface locally: the group
multi-select is rendered but no group is selected. -/
inductive ErrorKind where
  | MissingRequiredSelection
deriving DecidableEq

/-- A validation failure tagged to the offending field, as react-hook-form
records it in its `errors` object. -/
structure FieldError where
  field : String
  kind : ErrorKind
deriving DecidableEq

/-- `validateGroups` (lines 127–130): reads the current form values and
demands `groupIds.length !== 0`. -/
def validateGroups (values : FormValues) : Bool :=
  values.groupIds.length ≠ 0

/-- Form-level validation run by `handleSubmit`.  The `groupIds`
controller — and with it the `required` / `validateGroups` rules of
lines 409–412 — is only rendered when a `groups` prop is supplied
(line 398); with no `groups` prop no rule is registered at all. -/
def validate (groups : Option (List Group)) (values : FormValues) : Option FieldError :=
  match groups with
  | none => none
  | some _ =>
      if validateGroups values then none
      else some { field := "groupIds", kind := ErrorKind.MissingRequiredSelection }

/-- `handleSubmit(handleFilterSubmit)` (line 143): validate the current
values; on failure record the field error and call nothing; on success
call the `handleFilterSubmit` callback with the current value snapshot.
The first component is the outcome (the callback's own result is
returned unchanged, so a rejection from it propagates as-is); the second
component lists the arguments the callback was invoked with. -/
def submit {E R : Type} (groups : Option (List Group))
    (handleFilterSubmit : FormValues → Except E R) (s : FormState) :
    Except FieldError (Except E R) × List FormValues :=
  match validate groups s.values with
  | some err => (Except.error err, [])
  | none => (Except.ok (handleFilterSubmit s.values), [s.values])

/-- `handleClickReset` (lines 132–134): calls react-hook-form's `reset()`
and nothing else.  `reset()` restores every registered field to its
default value; the two `useState` mirrors are untouched, and no callback
is invoked (second component: the calls made to `handleFilterSubmit`). -/
def handleClickReset (s : FormState) : FormState × List FormValues :=
  ({ s with values := initialValues }, [])

/-! ## Rendered output of `SourceTableFilterForm` -/

/-- The pieces of the rendered tree the claims are about. -/
structure RenderedFilterForm where
  /-- `{groups && (...)}` at line 398: a supplied array (even empty) is
  truthy, so the group section renders. -/
  groupSectionPresent : Bool
  /-- the `value` props of the group `MenuItem`s: rendered only when
  `groups.length > 0` (line 435). -/
  groupMenuItemIds : List Nat
  /-- the controller's `rules.required` flag (line 410). -/
  groupRulesRequired : Bool
  /-- whether `validateGroups` is wired as the controller's
  `rules.validate` (line 411). -/
  groupRulesValidate : Bool
  /-- the `groupIDToName` mapping built at lines 122–125. -/
  groupIDToName : List (Nat × String)
  /-- the submit `Button` (line 459) has no `disabled` prop, so it is
  never disabled. -/
  submitDisabled : Bool
deriving DecidableEq

/-- The render body once `groups` is known to be an actual list. -/
def renderWithGroups (gs : List Group) (_s : FormState) : RenderedFilterForm :=
  { groupSectionPresent := true
  , groupMenuItemIds := if gs.length > 0 then gs.map (fun g => g.id) else []
  , groupRulesRequired := true
  , groupRulesValidate := true
  , groupIDToName := gs.map (fun g => (g.id, g.name))
  , submitDisabled := false }

/-- A full render of `SourceTableFilterForm`.  Before any JSX is emitted
the component body runs `groups.forEach(...)` (line 123) to build
`groupIDToName`; when the `groups` prop is absent (its declared default,
line 482, is `undefined`) that member access throws a `TypeError` and
the render fails. -/
def renderSourceTableFilterForm (groups : Option (List Group)) (s : FormState) :
    Except JsError RenderedFilterForm :=
  match groups with
  | none => Except.error (JsError.typeError "groups is undefined: groups.forEach is not callable")
  | some gs => Except.ok (renderWithGroups gs s)

/-! ## User-interface events for reachability arguments -/

/-- An interaction with the rendered form: editing one field, or
clicking the Reset button. -/
inductive UIEvent where
  | edit (f : Field)
  | resetClick
deriving DecidableEq

/-- Apply one interaction to the component state.  (Clicking Submit does
not change the component state, so it does not appear here.) -/
def applyUIEvent (s : FormState) : UIEvent → FormState
  | .edit f => setField s f
  | .resetClick => (handleClickReset s).1

/-- A group selection can only pick values offered as menu items: the
multi-select offers exactly the `MenuItem`s rendered for the `groups`
prop.  All other events are unconstrained. -/
def eventGroupsFromMenu (menuIds : List Nat) : UIEvent → Bool
  | .edit (.groupIds v) => v.all (fun x => menuIds.contains x)
  | _ => true

/-! ## `ShareDataForm` -/

/-- The mutable state of `ShareDataForm` the claims are about: the two
`useState` row-selection arrays, the `isSubmitting` flag (lines 79–81),
and the react-hook-form `groups` field (an array of group objects,
`defaultValue` `[]`). -/
structure ShareDataState where
  selectedPhotRows : List Nat
  selectedSpecRows : List Nat
  isSubmitting : Bool
  groupsValue : List Group
deriving DecidableEq

/-- The result object `await dispatch(sourceActions.shareData(data))`
resolves to; only its `status` is inspected. -/
structure ShareResult where
  status : String
deriving DecidableEq

/-- `onSubmit` up to the `await` (lines 98–111): after computing the
payload, `setIsSubmitting(true)` runs before the share request is
dispatched, so this is the state during the in-flight call. -/
def shareOnSubmitStart (s : ShareDataState) : ShareDataState :=
  { s with isSubmitting := true }

/-- `onSubmit` after the `await` (lines 112–118): on `status ===
"success"` the form's `groups` field is reset to `[]` and both row
selections are cleared; in every case `setIsSubmitting(false)` runs
last. -/
def shareOnSubmitResolve (s : ShareDataState) (result : ShareResult) : ShareDataState :=
  let s1 :=
    if result.status = "success" then
      { s with groupsValue := [], selectedPhotRows := [], selectedSpecRows := [] }
    else s
  { s1 with isSubmitting := false }

/-- The `disabled` prop of the share form's submit button (line 277):
`disabled={isSubmitting}`. -/
def shareSubmitButtonDisabled (s : ShareDataState) : Bool :=
  s.isSubmitting

/-! ## `CommentList` -/

/-- The slice of the viewing user's profile the hover handler reads. -/
structure UserProfile where
  roles : List String
  username : String
deriving DecidableEq

/-- `handleMouseHover` (lines 25–32): store the hovered comment's id in
`hoverID` only when the viewer is a super admin or the comment's
author; otherwise the state is left as it was. -/
def handleMouseHover (hoverID : Option Nat) (id : Nat) (userProfile : UserProfile)
    (author : String) : Option Nat :=
  if userProfile.roles.contains "Super admin" || userProfile.username == author then
    some id
  else hoverID

/-- `handleMouseLeave` (lines 34–36): clear the hover state. -/
def handleMouseLeave (_hoverID : Option Nat) : Option Nat :=
  none

/-- The delete button of comment `id` (lines 119–136) renders with
`display: block` exactly when `hoverID === id`. -/
def deleteCommentButtonVisible (hoverID : Option Nat) (id : Nat) : Bool :=
  hoverID == some id

/-! ## Helper lemmas -/

theorem getField_setField (s : FormState) (f : Field) (n : FieldName) :
    getField (setField s f).values n = if f.name = n then f.value else getField s.values n := by
  cases f <;> cases n <;> rfl

theorem getField_applyEdits (es : List Field) (s : FormState) (n : FieldName) :
    getField (applyEdits s es).values n = (lastEdit n es).getD (getField s.values n) := by
  induction es generalizing s with
  | nil => rfl
  | cons f es ih =>
    show getField (applyEdits (setField s f) es).values n = _
    rw [ih]
    cases h : lastEdit n es with
    | some v => simp [lastEdit, h]
    | none =>
      simp only [lastEdit, h, Option.getD_none, getField_setField]
      by_cases hn : f.name = n <;> simp [hn]

/-- The mirror invariant: each `useState` display-emphasis mirror equals
the committed value of its multi-select field. -/
def mirrorsMatch (s : FormState) : Prop :=
  s.selectedClassifications = s.values.classifications ∧
    s.selectedGroups = s.values.groupIds

theorem mirrorsMatch_setField {s : FormState} (h : mirrorsMatch s) (f : Field) :
    mirrorsMatch (setField s f) := by
  obtain ⟨h1, h2⟩ := h
  cases f <;> simp [mirrorsMatch, setField, h1, h2]

theorem mirrorsMatch_applyEdits {s : FormState} (h : mirrorsMatch s) (es : List Field) :
    mirrorsMatch (applyEdits s es) := by
  induction es generalizing s with
  | nil => exact h
  | cons f es ih => exact ih (mirrorsMatch_setField h f)

theorem groupIds_nil_preserved (s : FormState) (e : UIEvent)
    (hs : s.values.groupIds = []) (he : eventGroupsFromMenu [] e = true) :
    (applyUIEvent s e).values.groupIds = [] := by
  cases e with
  | resetClick => rfl
  | edit f =>
    cases f
    case groupIds v =>
      have hv : v = [] := by
        rw [List.eq_nil_iff_forall_not_mem]
        intro x hx
        simp only [eventGroupsFromMenu, List.all_eq_true] at he
        simpa using he x hx
      simp [applyUIEvent, setField, hv]
    all_goals simpa [applyUIEvent, setField] using hs

theorem groupIds_nil_of_events_from (es : List UIEvent) :
    ∀ s : FormState, (∀ e ∈ es, eventGroupsFromMenu [] e = true) →
      s.values.groupIds = [] →
      (es.foldl applyUIEvent s).values.groupIds = [] := by
  induction es with
  | nil => exact fun _ _ hs => hs
  | cons e es ih =>
    intro s h hs
    exact ih (applyUIEvent s e) (fun e' he' => h e' (List.mem_cons_of_mem e he'))
      (groupIds_nil_preserved s e hs (h e (List.mem_cons_self e es)))

/-! ## Claim theorems -/

/-- C1: whenever a group list is supplied and the draft `groupIds`
selection is empty at submit time, `submit` invokes no callback (the
invocation list is empty) and reports a `MissingRequiredSelection`
validation failure tagged to the `groupIds` field. -/
theorem submit_blocked_on_empty_groupIds {E R : Type}
    (gs : List Group) (handleFilterSubmit : FormValues → Except E R) (s : FormState)
    (h : s.values.groupIds = []) :
    submit (some gs) handleFilterSubmit s =
      (Except.error { field := "groupIds", kind := ErrorKind.MissingRequiredSelection }, []) := by
  simp [submit, validate, validateGroups, h]

theorem submit_blocked_on_empty_groupIds_witness :
    initialFormState.values.groupIds = [] ∧
    submit (some [{ id := 3, name := "Program A" }])
      (fun v => (Except.ok v.sourceID : Except Unit String)) initialFormState =
      (Except.error { field := "groupIds", kind := ErrorKind.MissingRequiredSelection }, []) :=
  ⟨rfl, submit_blocked_on_empty_groupIds [{ id := 3, name := "Program A" }]
    (fun v => (Except.ok v.sourceID : Except Unit String)) initialFormState rfl⟩

/-- C2 counterexample: the claim says `reset()` clears both
display-emphasis mirrors, but `handleClickReset` only calls the form
library's `reset()`; the `useState` mirrors keep their values.  After
selecting one classification and clicking Reset, the
`selectedClassifications` mirror still holds the selection. -/
theorem reset_keeps_mirror_counterexample :
    (handleClickReset (setField initialFormState
      (Field.classifications ["Sitewide taxonomy: AGN"]))).1.selectedClassifications =
      ["Sitewide taxonomy: AGN"] ∧
    ["Sitewide taxonomy: AGN"] ≠ ([] : List String) :=
  ⟨rfl, by decide⟩

/-- C2 (amended): for every prior state, `handleClickReset` restores
every form field to its initial default, is idempotent and never
invokes the submission callback — but it leaves both display-emphasis
mirrors (`selectedClassifications`, `selectedGroups`) unchanged rather
than clearing them. -/
theorem reset_restores_defaults_keeps_mirrors (s : FormState) :
    (handleClickReset s).1.values = initialValues ∧
    (handleClickReset s).2 = [] ∧
    (handleClickReset (handleClickReset s).1).1 = (handleClickReset s).1 ∧
    (handleClickReset s).1.selectedClassifications = s.selectedClassifications ∧
    (handleClickReset s).1.selectedGroups = s.selectedGroups :=
  ⟨rfl, rfl, rfl, rfl, rfl⟩

/-- C3 counterexample: after the resetClick operation the mirror no
longer equals the committed selection of its field: selecting group 3
and clicking Reset leaves `selectedGroups = [3]` while the committed
`groupIds` value is back to `[]`. -/
theorem mirror_invariant_broken_by_reset :
    (handleClickReset (setField initialFormState (Field.groupIds [3]))).1.selectedGroups = [3] ∧
    (handleClickReset (setField initialFormState (Field.groupIds [3]))).1.values.groupIds = [] ∧
    ([3] : List Nat) ≠ [] :=
  ⟨rfl, rfl, by decide⟩

/-- C3 (amended): after any sequence of `setField` operations from the
initial state (submit does not change the form state, but resetClick is
excluded: it breaks the invariant), each display-emphasis mirror equals
the last committed selection of its multi-select field; and the mirrors
have no effect on the criteria produced at submit: any state with the
same form values submits identically. -/
theorem mirrors_track_selection_and_do_not_affect_submit {E R : Type}
    (es : List Field) (groups : Option (List Group))
    (handleFilterSubmit : FormValues → Except E R) (s' : FormState)
    (h : s'.values = (applyEdits initialFormState es).values) :
    (applyEdits initialFormState es).selectedClassifications =
      (applyEdits initialFormState es).values.classifications ∧
    (applyEdits initialFormState es).selectedGroups =
      (applyEdits initialFormState es).values.groupIds ∧
    submit groups handleFilterSubmit s' =
      submit groups handleFilterSubmit (applyEdits initialFormState es) := by
  obtain ⟨h1, h2⟩ := mirrorsMatch_applyEdits (s := initialFormState) ⟨rfl, rfl⟩ es
  exact ⟨h1, h2, by simp [submit, h]⟩

theorem mirrors_track_selection_witness :
    ({ values := (applyEdits initialFormState [Field.classifications ["T1: AGN"]]).values
     , selectedClassifications := ["stale"], selectedGroups := [9] } : FormState).values =
      (applyEdits initialFormState [Field.classifications ["T1: AGN"]]).values ∧
    ((applyEdits initialFormState [Field.classifications ["T1: AGN"]]).selectedClassifications =
      (applyEdits initialFormState [Field.classifications ["T1: AGN"]]).values.classifications ∧
    (applyEdits initialFormState [Field.classifications ["T1: AGN"]]).selectedGroups =
      (applyEdits initialFormState [Field.classifications ["T1: AGN"]]).values.groupIds ∧
    submit (some [{ id := 1, name := "g" }]) (fun v => (Except.ok v.classifications : Except Unit (List String)))
      { values := (applyEdits initialFormState [Field.classifications ["T1: AGN"]]).values
      , selectedClassifications := ["stale"], selectedGroups := [9] } =
      submit (some [{ id := 1, name := "g" }]) (fun v => (Except.ok v.classifications : Except Unit (List String)))
        (applyEdits initialFormState [Field.classifications ["T1: AGN"]])) :=
  ⟨rfl, mirrors_track_selection_and_do_not_affect_submit
    [Field.classifications ["T1: AGN"]] (some [{ id := 1, name := "g" }])
    (fun v => (Except.ok v.classifications : Except Unit (List String)))
    { values := (applyEdits initialFormState [Field.classifications ["T1: AGN"]]).values
    , selectedClassifications := ["stale"], selectedGroups := [9] } rfl⟩

/-- C5: the claim (and the component's own optional-prop declarations)
say that with no group list supplied the form renders without the group
section and submission proceeds; but the component body unconditionally
runs `groups.forEach(...)` before emitting any JSX, so with the
declared default `groups = undefined` every render throws a `TypeError`
and no submit can ever happen. -/
theorem render_crashes_without_groups (s : FormState) :
    renderSourceTableFilterForm none s =
      Except.error (JsError.typeError "groups is undefined: groups.forEach is not callable") :=
  rfl

/-- C7: the source-filter form's submit button is never disabled in any
state (its `FormState` carries no submitting flag and the JSX passes no
`disabled` prop), whereas the data-sharing form sets `isSubmitting`
before dispatching the share request, renders its submit button with
`disabled={isSubmitting}`, and ends every resolution with
`isSubmitting = false`. -/
theorem submitting_state_tracking (sf : FormState) (gs : List Group)
    (s : ShareDataState) (result : ShareResult) :
    (renderWithGroups gs sf).submitDisabled = false ∧
    (shareOnSubmitStart s).isSubmitting = true ∧
    shareSubmitButtonDisabled (shareOnSubmitStart s) = true ∧
    (shareOnSubmitResolve (shareOnSubmitStart s) result).isSubmitting = false := by
  refine ⟨rfl, rfl, rfl, ?_⟩
  by_cases h : result.status = "success" <;> simp [shareOnSubmitResolve, h]

/-- C9: after the share request resolves, the group selection and both
selected-row sets are cleared exactly when the result status is
`"success"` and left unchanged otherwise, and `isSubmitting` is set
back to `false` in either case. -/
theorem share_resolve_resets_iff_success (s : ShareDataState) (result : ShareResult) :
    (shareOnSubmitResolve s result).isSubmitting = false ∧
    (shareOnSubmitResolve s result).selectedPhotRows =
      (if result.status = "success" then [] else s.selectedPhotRows) ∧
    (shareOnSubmitResolve s result).selectedSpecRows =
      (if result.status = "success" then [] else s.selectedSpecRows) ∧
    (shareOnSubmitResolve s result).groupsValue =
      (if result.status = "success" then [] else s.groupsValue) := by
  by_cases h : result.status = "success" <;> simp [shareOnSubmitResolve, h]

/-- C10: hovering a comment records its id (and thereby shows the delete
button) only when the viewer has the "Super admin" role or is the
comment's author; for any other viewer the hover handler leaves the
state unchanged, and the delete button of the hovered comment stays
hidden. -/
theorem hover_delete_only_for_admin_or_author (hoverID : Option Nat) (id : Nat)
    (userProfile : UserProfile) (author : String)
    (h1 : "Super admin" ∉ userProfile.roles) (h2 : userProfile.username ≠ author)
    (h3 : hoverID ≠ some id) :
    handleMouseHover hoverID id userProfile author = hoverID ∧
    deleteCommentButtonVisible (handleMouseHover hoverID id userProfile author) id = false := by
  have he : handleMouseHover hoverID id userProfile author = hoverID := by
    simp [handleMouseHover, h1, h2]
  refine ⟨he, ?_⟩
  rw [he]
  exact beq_eq_false_iff_ne.mpr h3

theorem hover_delete_only_for_admin_or_author_witness :
    "Super admin" ∉ ["Manage sources"] ∧ "alice" ≠ "bob" ∧ (none : Option Nat) ≠ some 7 ∧
    (handleMouseHover none 7 { roles := ["Manage sources"], username := "alice" } "bob" = none ∧
      deleteCommentButtonVisible
        (handleMouseHover none 7 { roles := ["Manage sources"], username := "alice" } "bob") 7 = false) :=
  ⟨by decide, by decide, by decide,
    hover_delete_only_for_admin_or_author none 7
      { roles := ["Manage sources"], username := "alice" } "bob"
      (by decide) (by decide) (by decide)⟩

/-- C4: the classification option set keeps exactly the `isLatest`
taxonomies, formats each extracted class as `"{taxonomyName}: {className}"`,
contains each formatted label exactly once (no duplicates), is sorted
ascending in code-point order, and on the spec's concrete example
produces `["T1: SN II", "T1: SN Ia"]`. -/
theorem buildClassifications_spec {H : Type} (allowedClasses : H → List ClassEntry)
    (taxonomyList : List (Taxonomy H)) :
    List.Sorted (· ≤ ·) (buildClassifications allowedClasses taxonomyList) ∧
    (buildClassifications allowedClasses taxonomyList).Nodup ∧
    (∀ x, x ∈ buildClassifications allowedClasses taxonomyList ↔
      ∃ t ∈ taxonomyList, t.isLatest = true ∧
        ∃ o ∈ allowedClasses t.hierarchy, x = t.name ++ ": " ++ o.«class») ∧
    buildClassifications (fun _ : Unit => [{ «class» := "SN Ia" }, { «class» := "SN II" }])
      [{ name := "T1", isLatest := true, hierarchy := () }] = ["T1: SN II", "T1: SN Ia"] := by
  refine ⟨List.sorted_insertionSort _ _,
    (List.perm_insertionSort _ _).nodup_iff.mpr (nodup_jsSetDedup _), ?_, ?_⟩
  case refine_2 =>
    have h : ¬ (("T1: SN Ia" : String) ≤ "T1: SN II") := by
      rw [String.le_iff_toList_le]
      decide
    simp [buildClassifications, jsSetDedup, List.insertionSort, List.orderedInsert, h]
  intro x
  simp only [buildClassifications, List.mem_insertionSort, mem_jsSetDedup,
    foldl_append_map, List.nil_append, List.mem_flatMap, List.mem_filter, List.mem_map]
  constructor
  · rintro ⟨t, ⟨ht, hl⟩, o, ho, rfl⟩
    exact ⟨t, ht, hl, o, ho, rfl⟩
  · rintro ⟨t, ht, hl, o, ho, rfl⟩
    exact ⟨t, ⟨ht, hl⟩, o, ho, rfl⟩

/-- C6: for every sequence of field edits from the initial state whose
final values pass validation, `submit` invokes the callback exactly once
with the current value snapshot, returns the callback's own result
unchanged (so a rejection propagates as-is), and that snapshot holds,
for each field, precisely the value of the last edit of that field (or
the initial default when the field was never edited). -/
theorem submit_snapshot_reflects_last_edits {E R : Type}
    (groups : Option (List Group)) (es : List Field)
    (handleFilterSubmit : FormValues → Except E R)
    (h : validate groups (applyEdits initialFormState es).values = none) :
    submit groups handleFilterSubmit (applyEdits initialFormState es) =
      (Except.ok (handleFilterSubmit (applyEdits initialFormState es).values),
        [(applyEdits initialFormState es).values]) ∧
    ∀ n : FieldName, getField (applyEdits initialFormState es).values n =
      (lastEdit n es).getD (getField initialValues n) :=
  ⟨by simp [submit, h], fun n => getField_applyEdits es initialFormState n⟩

theorem submit_snapshot_reflects_last_edits_witness :
    validate (some [{ id := 3, name := "Program A" }])
      (applyEdits initialFormState [Field.sourceID "ZTF21abc", Field.groupIds [3]]).values = none ∧
    submit (some [{ id := 3, name := "Program A" }])
      (fun v => (Except.ok v.sourceID : Except Unit String))
      (applyEdits initialFormState [Field.sourceID "ZTF21abc", Field.groupIds [3]]) =
      (Except.ok (Except.ok "ZTF21abc"),
        [(applyEdits initialFormState [Field.sourceID "ZTF21abc", Field.groupIds [3]]).values]) :=
  ⟨rfl, (submit_snapshot_reflects_last_edits (some [{ id := 3, name := "Program A" }])
    [Field.sourceID "ZTF21abc", Field.groupIds [3]]
    (fun v => (Except.ok v.sourceID : Except Unit String)) rfl).1⟩

/-- C8: with an empty (but present) group list, the group section still
renders with its `required`/`validateGroups` rules but offers no menu
items, so along any event trace whose group selections come from the
(empty) menu the draft `groupIds` stays empty, every submit reports the
`MissingRequiredSelection` failure on `groupIds`, and the filter-apply
callback is never invoked. -/
theorem empty_group_list_always_blocks_submit {E R : Type} (es : List UIEvent)
    (handleFilterSubmit : FormValues → Except E R)
    (h : ∀ e ∈ es, eventGroupsFromMenu [] e = true) :
    renderWithGroups [] (es.foldl applyUIEvent initialFormState) =
      { groupSectionPresent := true, groupMenuItemIds := [], groupRulesRequired := true
      , groupRulesValidate := true, groupIDToName := [], submitDisabled := false } ∧
    submit (some []) handleFilterSubmit (es.foldl applyUIEvent initialFormState) =
      (Except.error { field := "groupIds", kind := ErrorKind.MissingRequiredSelection }, []) := by
  have hg := groupIds_nil_of_events_from es initialFormState h rfl
  exact ⟨rfl, by simp [submit, validate, validateGroups, hg]⟩

theorem empty_group_list_always_blocks_submit_witness :
    (∀ e ∈ [UIEvent.edit (Field.sourceID "ZTF21abc"), UIEvent.resetClick,
        UIEvent.edit (Field.hasSpectrum true)], eventGroupsFromMenu [] e = true) ∧
    submit (some []) (fun v => (Except.ok v.sourceID : Except Unit String))
      ([UIEvent.edit (Field.sourceID "ZTF21abc"), UIEvent.resetClick,
        UIEvent.edit (Field.hasSpectrum true)].foldl applyUIEvent initialFormState) =
      (Except.error { field := "groupIds", kind := ErrorKind.MissingRequiredSelection }, []) :=
  ⟨by decide, (empty_group_list_always_blocks_submit
    [UIEvent.edit (Field.sourceID "ZTF21abc"), UIEvent.resetClick,
      UIEvent.edit (Field.hasSpectrum true)]
    (fun v => (Except.ok v.sourceID : Except Unit String)) (by decide)).2⟩

end SkyPortal
